import Mathlib

/-!
Verification of the `dynite` Business Central OData client
(`src/dynite/client.py`, `src/dynite/exceptions.py`).

The Python code is shallowly embedded: strings are lists of characters
(`PyStr`), parsed JSON values are the inductive `Json`, the HTTP transport
(the external `requests` session) is an oracle `Server : PyStr → HttpResult`,
and the unbounded `while` loop of `get_records` becomes the fuel-indexed
`Dynite.paginate` (fuel exhaustion returns `none`, distinguishing
non-termination of the model from every program outcome).
-/

/-- Python strings are modelled as lists of characters: the body of a count
response is the UTF-8 decoded character sequence (a leading byte-order mark
appears as the character U+FEFF). -/
abbrev PyStr := List Char

/-- The characters for which Python's `str.isspace()` is true — the complete
set: tab, LF, VT, FF, CR, the four information separators, space, NEL, NBSP,
Ogham space mark, the U+2000..U+200A spaces, line and paragraph separator,
narrow NBSP, medium mathematical space and ideographic space.  `str.strip()`
removes exactly these. -/
def pyIsSpace (c : Char) : Bool :=
  let n := c.toNat
  (0x09 ≤ n && n ≤ 0x0d) || (0x1c ≤ n && n ≤ 0x1f) || n == 0x20 ||
  n == 0x85 || n == 0xa0 || n == 0x1680 || (0x2000 ≤ n && n ≤ 0x200a) ||
  n == 0x2028 || n == 0x2029 || n == 0x202f || n == 0x205f || n == 0x3000

/-- Models `s.strip()`: removes leading and trailing whitespace. -/
def pyStrip (s : PyStr) : PyStr :=
  ((s.dropWhile pyIsSpace).reverse.dropWhile pyIsSpace).reverse

/-- Models `s.lstrip("/")`: removes every leading `'/'`. -/
def lstripSlashes (s : PyStr) : PyStr :=
  s.dropWhile (· == '/')

/-- Models `s.rstrip("/")`: removes every trailing `'/'`. -/
def rstripSlashes (s : PyStr) : PyStr :=
  (s.reverse.dropWhile (· == '/')).reverse

/-- Decimal digit characters (Unicode category Nd — the characters `int()`
accepts) in the modelled repertoire, together with the code point of the
zero of their block, from which `int()` derives the digit value.  Modelled
blocks: ASCII, Arabic-Indic, Extended Arabic-Indic, Devanagari, Bengali and
fullwidth digits; see `pyCharKnown` for how partial coverage of Unicode is
kept honest. -/
def decimalZero (c : Char) : Option Nat :=
  let n := c.toNat
  if 0x30 ≤ n && n ≤ 0x39 then some 0x30
  else if 0x660 ≤ n && n ≤ 0x669 then some 0x660
  else if 0x6f0 ≤ n && n ≤ 0x6f9 then some 0x6f0
  else if 0x966 ≤ n && n ≤ 0x96f then some 0x966
  else if 0x9e6 ≤ n && n ≤ 0x9ef then some 0x9e6
  else if 0xff10 ≤ n && n ≤ 0xff19 then some 0xff10
  else none

/-- Characters `int()` accepts as digits (Unicode category Nd, modelled
repertoire). -/
def pyIsDecimalChar (c : Char) : Bool :=
  (decimalZero c).isSome

/-- Characters for which `str.isdigit()` is true although they are NOT
decimal digits (Unicode property Numeric_Type=Digit without category Nd):
`int()` raises `ValueError` on them.  Modelled: the superscript digits
`¹ ² ³` and U+2070, U+2074..U+2079, and the subscript digits
U+2080..U+2089. -/
def pyIsDigitNotDecimal (c : Char) : Bool :=
  let n := c.toNat
  n == 0xb2 || n == 0xb3 || n == 0xb9 ||
  n == 0x2070 || (0x2074 ≤ n && n ≤ 0x2079) ||
  (0x2080 ≤ n && n ≤ 0x2089)

/-- Characters for which Python's `str.isdigit()` is true (modelled
repertoire). -/
def pyIsDigitChar (c : Char) : Bool :=
  pyIsDecimalChar c || pyIsDigitNotDecimal c

/-- Models `s.isdigit()`: true when `s` is non-empty and every character is
digit-typed (decimal or not). -/
def pyIsDigit (s : PyStr) : Bool :=
  !s.isEmpty && s.all pyIsDigitChar

/-- Characters whose digit classification the model settles exactly: all of
ASCII, the modelled Unicode digit blocks and the whitespace set.  Any other
code point is conservatively classified non-digit, which may disagree with
Python for an unmodelled Unicode digit — therefore theorems about the
`isdigit`-false branch quantify only over texts of known characters. -/
def pyCharKnown (c : Char) : Bool :=
  c.toNat < 0x80 || pyIsDigitChar c || pyIsSpace c

/-- One step of the accumulation performed by `int(s)` on digit text: once a
non-decimal character is met the result is `none` (a `ValueError`). -/
def pyIntStep (acc : Option Nat) (c : Char) : Option Nat :=
  match acc, decimalZero c with
  | some n, some z => some (10 * n + (c.toNat - z))
  | _, _ => none

/-- Models `int(s)` for the strings that reach it in `_get_record_count`
(they all pass `s.isdigit()`): the base-10 value built from the digit values
when every character is a decimal digit (Unicode Nd), `none` — a raised
`ValueError` — when some `isdigit`-true character is not decimal (e.g.
`'²'`). -/
def pyInt (s : PyStr) : Option Nat :=
  if s.isEmpty then none else s.foldl pyIntStep (some 0)

/-- The byte-order mark U+FEFF (the UTF-8 bytes EF BB BF decode to it). -/
def bomChar : Char := Char.ofNat 0xFEFF

/-- Models `bytes.decode("utf-8-sig")` at the character level: at most one
leading byte-order mark is removed. -/
def utf8SigDecode : PyStr → PyStr
  | [] => []
  | c :: rest => if c = bomChar then rest else c :: rest

def schemeHttp : PyStr := "http://".toList

def schemeHttps : PyStr := "https://".toList

/-- Models `url.startswith(("http://", "https://"))`. -/
def hasHttpScheme (u : PyStr) : Bool :=
  schemeHttp.isPrefixOf u || schemeHttps.isPrefixOf u

/-- The `netloc` component produced by `urllib.parse.urlparse` for a URL that
starts with `http://` or `https://`: the characters after the scheme up to the
first `'/'`, `'?'` or `'#'` (empty for any other string). -/
def netlocAfter (u : PyStr) : PyStr :=
  if schemeHttp.isPrefixOf u then
    (u.drop 7).takeWhile (fun c => !(c == '/' || c == '?' || c == '#'))
  else if schemeHttps.isPrefixOf u then
    (u.drop 8).takeWhile (fun c => !(c == '/' || c == '?' || c == '#'))
  else []

/-- Characters never percent-encoded by `urllib.parse.quote_plus`. -/
def alwaysSafe (c : Char) : Bool :=
  c.isAlphanum || c == '_' || c == '.' || c == '-' || c == '~'

def hexDigit (n : Nat) : Char :=
  if n < 10 then Char.ofNat (48 + n) else Char.ofNat (55 + n)

/-- UTF-8 encoding of one character, for percent-encoding. -/
def utf8Bytes (c : Char) : List Nat :=
  let n := c.toNat
  if n < 0x80 then [n]
  else if n < 0x800 then [0xC0 + n / 0x40, 0x80 + n % 0x40]
  else if n < 0x10000 then
    [0xE0 + n / 0x1000, 0x80 + (n / 0x40) % 0x40, 0x80 + n % 0x40]
  else
    [0xF0 + n / 0x40000, 0x80 + (n / 0x1000) % 0x40,
     0x80 + (n / 0x40) % 0x40, 0x80 + n % 0x40]

/-- Models `urllib.parse.quote_plus` on one character. -/
def quotePlusChar (c : Char) : PyStr :=
  if alwaysSafe c then [c]
  else if c == ' ' then ['+']
  else ((utf8Bytes c).map (fun b => ['%', hexDigit (b / 16), hexDigit (b % 16)])).flatten

/-- Models `urllib.parse.quote_plus` on a string. -/
def quotePlus (s : PyStr) : PyStr :=
  (s.map quotePlusChar).flatten

/-- Models `urllib.parse.urlencode(params)` with parameters as an ordered
association list (Python dict iteration order). -/
def urlencode (params : List (PyStr × PyStr)) : PyStr :=
  List.intercalate ['&'] (params.map (fun kv => quotePlus kv.1 ++ '=' :: quotePlus kv.2))

/-- Parsed JSON values as produced by `response.json()` / `json.loads`:
objects become ordered key-value lists (dict insertion order), numbers are
modelled by integers (the claims involve only integral numbers). -/
inductive Json where
  | null
  | bool (b : Bool)
  | num (n : Int)
  | str (s : PyStr)
  | arr (elems : List Json)
  | obj (entries : List (PyStr × Json))

def valueKey : PyStr := "value".toList

def nextLinkKey : PyStr := "@odata.nextLink".toList

/-- First-match lookup in a parsed JSON object (keys of a Python dict are
unique, so first-match agrees with dict lookup). -/
def lookupKV : List (PyStr × Json) → PyStr → Option Json
  | [], _ => none
  | (k, v) :: rest, key => if k = key then some v else lookupKV rest key

/-- Models `d.get(key)` on a parsed JSON object; `none` for an absent key.  On a
non-object this helper returns `none`; callers that model Python's
`AttributeError` use `dictGet` instead. -/
def jLookup : Json → PyStr → Option Json
  | .obj entries, key => lookupKV entries key
  | _, _ => none

/-- Python exceptions that escape the client uncaught (they are not
`DyniteError` subclasses). -/
inductive PyExn where
  | attributeError
  | typeError
  | valueError
deriving DecidableEq

/-- Models `x.get(key, default)`: only a dict has a `get` method, any other
value raises `AttributeError`. -/
def dictGet (j : Json) (key : PyStr) (dflt : Json) : Except PyExn Json :=
  match j with
  | .obj entries => .ok ((lookupKV entries key).getD dflt)
  | _ => .error .attributeError

/-- Whether a parsed JSON value is a Python dict. -/
def Json.isDict : Json → Bool
  | .obj _ => true
  | _ => false

/-- Python truthiness of a parsed JSON value: `None`, `False`, `0`, `""`,
`[]` and the empty dict are falsy. -/
def pyTruthy : Json → Bool
  | .null => false
  | .bool b => b
  | .num n => decide (n ≠ 0)
  | .str s => !s.isEmpty
  | .arr elems => !elems.isEmpty
  | .obj entries => !entries.isEmpty

/-- Decimal digits of a natural number (fuel-indexed so that it reduces
definitionally; the first argument bounds the recursion depth). -/
def natDigitsAux : Nat → Nat → PyStr
  | 0, _ => []
  | fuel + 1, n =>
    if n < 10 then [Char.ofNat (48 + n)]
    else natDigitsAux fuel (n / 10) ++ [Char.ofNat (48 + n % 10)]

/-- Models Python `str(n)` for an integer. -/
def intRepr (n : Int) : PyStr :=
  if n < 0 then '-' :: natDigitsAux (n.natAbs + 1) n.natAbs
  else natDigitsAux (n.natAbs + 1) n.natAbs

/-- Python `repr` of a string: quoted with `'`, or with `"` when the text
contains `'` but no `"`; backslash, the quote character and the common
control characters are escaped (escaping of other non-printable characters
is elided, no claim depends on it). -/
def pyReprOfStr (s : PyStr) : PyStr :=
  let q : Char := if s.contains '\'' && !s.contains '"' then '"' else '\''
  let esc : Char → PyStr := fun c =>
    if c == '\\' then ['\\', '\\']
    else if c == q then ['\\', q]
    else if c == '\n' then ['\\', 'n']
    else if c == '\x0d' then ['\\', 'r']
    else if c == '\t' then ['\\', 't']
    else [c]
  q :: (s.map esc).flatten ++ [q]

mutual

/-- Python `repr` of a parsed JSON value (an int/str/bool/None/list/dict). -/
def pyRepr : Json → PyStr
  | .null => "None".toList
  | .bool true => "True".toList
  | .bool false => "False".toList
  | .num n => intRepr n
  | .str s => pyReprOfStr s
  | .arr elems => '[' :: List.intercalate (", ".toList) (pyReprList elems) ++ [']']
  | .obj entries =>
    Char.ofNat 123 :: List.intercalate (", ".toList) (pyReprKV entries) ++ [Char.ofNat 125]

def pyReprList : List Json → List PyStr
  | [] => []
  | j :: rest => pyRepr j :: pyReprList rest

def pyReprKV : List (PyStr × Json) → List PyStr
  | [] => []
  | (k, v) :: rest => (pyReprOfStr k ++ ':' :: ' ' :: pyRepr v) :: pyReprKV rest

end

/-- Models Python `str(x)` on a parsed JSON value: a string is returned
unchanged, everything else via its `repr`. -/
def pyStr : Json → PyStr
  | .null => "None".toList
  | .bool true => "True".toList
  | .bool false => "False".toList
  | .num n => intRepr n
  | .str s => s
  | .arr elems => pyRepr (.arr elems)
  | .obj entries => pyRepr (.obj entries)

/-- Models `records.extend(v)`: lists append their elements, strings their
characters, dicts their keys; any non-iterable raises `TypeError`. -/
def pyExtend (acc : List Json) (v : Json) : Except PyExn (List Json) :=
  match v with
  | .arr elems => .ok (acc ++ elems)
  | .str s => .ok (acc ++ s.map (fun c => Json.str [c]))
  | .obj entries => .ok (acc ++ entries.map (fun kv => Json.str kv.1))
  | _ => .error .typeError

/-- Cause of a `requests.exceptions.RequestException`: a connection failure or
timeout raised by `session.get`, exhaustion of the mounted retry policy on a
retryable status, or the `HTTPError` raised by `response.raise_for_status()`
for a 4xx/5xx status. -/
inductive ReqCause where
  | connectionError
  | timeoutError
  | retryError
  | httpError (status : Nat)
deriving DecidableEq

/-- The error taxonomy of `dynite.exceptions` (`InvalidURLError`,
`InvalidResponseError`, `FailedRequestError`, the latter carrying its cause),
plus `pyError` for a plain Python exception that escapes the client without
being one of the three `DyniteError` kinds. -/
inductive Err where
  | invalidURL
  | invalidResponse
  | failedRequest (cause : ReqCause)
  | pyError (e : PyExn)
deriving DecidableEq

/-- A delivered HTTP response: `content` is the decoded body (for the count
endpoint), `json` the result of `response.json()` (`none` models a
`json.JSONDecodeError`). -/
structure RawResp where
  content : PyStr
  json : Option Json

/-- Outcome of one `session.get(url)` as seen from the client: either a
`RequestException` with its cause, or a delivered response with its final
status code. -/
inductive HttpResult where
  | exn (cause : ReqCause)
  | resp (status : Nat) (body : RawResp)

/-- The external HTTP transport as an oracle mapping each requested URL to an
outcome.  The oracle is deterministic, so a status in the retryable set is
received again on every retry and the mounted policy always ends in a
`RetryError`. -/
def Server : Type := PyStr → HttpResult

/-- The retryable status set configured in `Dynite._mount_adapters`. -/
def statusForcelist : List Nat := [429, 500, 502, 503, 504]

/-- Models `self.session.get(url, timeout=...)` under the mounted retry
policy: a status in the forcelist is retried until the policy raises
`RetryError` (deterministic server), anything else is delivered. -/
def sessionGet (server : Server) (url : PyStr) : Except ReqCause (Nat × RawResp) :=
  match server url with
  | .exn cause => .error cause
  | .resp st body =>
    if st ∈ statusForcelist then .error .retryError else .ok (st, body)

/-- The `urllib3.util.Retry` value built in `Dynite._mount_adapters`. -/
structure RetryPolicy where
  total : Int
  status_forcelist : List Nat
  backoff_factor : Int
deriving DecidableEq

/-- The client state established by `Dynite.__init__`: validated base URL,
credentials, validated timeout, and the per-scheme adapter mounts. -/
structure Dynite where
  base_url : PyStr
  auth : PyStr × PyStr
  timeout : Int
  mounts : List (PyStr × RetryPolicy)

/-- Models `Dynite._validate_url`. -/
def Dynite.validate_url (url : PyStr) : Except Err PyStr :=
  let u := pyStrip url
  if !hasHttpScheme u then .error .invalidURL
  else if (netlocAfter u).isEmpty then .error .invalidURL
  else .ok (rstripSlashes u)

/-- Models `Dynite._validate_timeout`. -/
def Dynite.validate_timeout (timeout : Int) : Int :=
  if timeout ≤ 0 then 30 else timeout

/-- Models `Dynite.__init__` (including the retries validation and adapter
mounting done by `_mount_adapters`): an invalid base URL aborts construction,
invalid timeout/retries are replaced by their defaults with a warning. -/
def Dynite.init (base_url : PyStr) (auth : PyStr × PyStr) (timeout retries : Int) :
    Except Err Dynite :=
  match Dynite.validate_url base_url with
  | .error e => .error e
  | .ok b =>
    let retries' := if retries < 0 then 3 else retries
    let policy : RetryPolicy :=
      { total := retries', status_forcelist := [429, 500, 502, 503, 504], backoff_factor := 1 }
    .ok { base_url := b, auth := auth, timeout := Dynite.validate_timeout timeout,
          mounts := [(schemeHttp, policy), (schemeHttps, policy)] }

/-- Models `Dynite._build_url`. -/
def Dynite.build_url (c : Dynite) (endpoint : PyStr) (params : List (PyStr × PyStr))
    (get_count : Bool) : PyStr :=
  let e := lstripSlashes endpoint
  let url := c.base_url ++ '/' :: e
  let url := if get_count then url ++ "/$count".toList else url
  if params.isEmpty then url else url ++ '?' :: urlencode params

/-- Models `Dynite._get`: `session.get` plus `raise_for_status()`, with any
`RequestException` re-raised as `FailedRequestError` carrying its cause.
`raise_for_status` raises exactly for statuses in 400..599. -/
def Dynite.raw_get (server : Server) (url : PyStr) : Except Err RawResp :=
  match sessionGet server url with
  | .error cause => .error (.failedRequest cause)
  | .ok (st, body) =>
    if 400 ≤ st ∧ st < 600 then .error (.failedRequest (.httpError st))
    else .ok body

/-- Models `Dynite._get_record_count`. -/
def Dynite.get_record_count (c : Dynite) (server : Server) (endpoint : PyStr)
    (params : List (PyStr × PyStr)) : Except Err Nat :=
  let url := c.build_url endpoint params true
  match Dynite.raw_get server url with
  | .error e => .error e
  | .ok resp =>
    let clean_text := pyStrip (utf8SigDecode resp.content)
    if pyIsDigit clean_text then
      match pyInt clean_text with
      | some n => .ok n
      | none => .error (.pyError .valueError)
    else .error .invalidResponse

/-- Models `Dynite._get_next_page_link` applied to the parsed page body:
`str(next_link) if next_link else None`. -/
def Dynite.get_next_page_link (response : Json) : Option PyStr :=
  match jLookup response nextLinkKey with
  | some v => if pyTruthy v then some (pyStr v) else none
  | none => none

/-- The `while True` loop of `Dynite.get_records`, indexed by fuel: `none`
means the loop did not terminate within `fuel` iterations (the source loop is
unbounded). -/
def Dynite.paginate (server : Server) : Nat → PyStr → List Json →
    Option (Except Err (List Json))
  | 0, _, _ => none
  | fuel + 1, url, records =>
    match Dynite.raw_get server url with
    | .error e => some (.error e)
    | .ok resp =>
      match resp.json with
      | none => some (.error .invalidResponse)
      | some json_response =>
        match dictGet json_response valueKey (.arr []) with
        | .error e => some (.error (.pyError e))
        | .ok v =>
          match pyExtend records v with
          | .error e => some (.error (.pyError e))
          | .ok records' =>
            match Dynite.get_next_page_link json_response with
            | none => some (.ok records')
            | some next => Dynite.paginate server fuel next records'

/-- Models `Dynite.get_records`: the record count is fetched first (its value
is only logged), then pagination starts at the count-free URL with an empty
accumulator. -/
def Dynite.get_records (c : Dynite) (server : Server) (endpoint : PyStr)
    (params : List (PyStr × PyStr)) (fuel : Nat) : Option (Except Err (List Json)) :=
  match c.get_record_count server endpoint params with
  | .error e => some (.error e)
  | .ok _total => Dynite.paginate server fuel (c.build_url endpoint params false) []

/-! ### Helper shapes for page responses and lemmas about one pagination step -/

/-- A record used in concrete scenarios: the object `{"id": i}`. -/
def wRec (i : Int) : Json := .obj [("id".toList, .num i)]

/-- A parsed page body holding the records under `"value"` and, optionally, a
next-page cursor string under `"@odata.nextLink"`. -/
def pageBody (vals : List Json) (next : Option PyStr) : Json :=
  .obj ((valueKey, Json.arr vals) ::
    (match next with
     | some u => [(nextLinkKey, Json.str u)]
     | none => []))

/-- A delivered page: status 200, body parsing to `pageBody vals next`. -/
def pageResp (vals : List Json) (next : Option PyStr) : HttpResult :=
  .resp 200 ⟨[], some (pageBody vals next)⟩

/-- A parsed page body whose `"@odata.nextLink"` field holds an arbitrary
JSON value `v` (used to study falsy and non-string cursors). -/
def pageBodyV (vals : List Json) (v : Json) : Json :=
  .obj [(valueKey, Json.arr vals), (nextLinkKey, v)]

/-- A delivered page with an arbitrary cursor value. -/
def pageRespV (vals : List Json) (v : Json) : HttpResult :=
  .resp 200 ⟨[], some (pageBodyV vals v)⟩

theorem valueKey_ne_nextLinkKey : valueKey ≠ nextLinkKey := by decide

theorem raw_get_exn (server : Server) (url : PyStr) (cause : ReqCause)
    (h : server url = .exn cause) :
    Dynite.raw_get server url = .error (.failedRequest cause) := by
  simp [Dynite.raw_get, sessionGet, h]

theorem raw_get_retry (server : Server) (url : PyStr) (st : Nat) (body : RawResp)
    (h : server url = .resp st body) (hf : st ∈ statusForcelist) :
    Dynite.raw_get server url = .error (.failedRequest .retryError) := by
  simp [Dynite.raw_get, sessionGet, h, if_pos hf]

theorem raw_get_http_error (server : Server) (url : PyStr) (st : Nat) (body : RawResp)
    (h : server url = .resp st body) (hf : st ∉ statusForcelist)
    (hr : 400 ≤ st ∧ st < 600) :
    Dynite.raw_get server url = .error (.failedRequest (.httpError st)) := by
  simp [Dynite.raw_get, sessionGet, h, if_neg hf, if_pos hr]

theorem raw_get_ok (server : Server) (url : PyStr) (st : Nat) (body : RawResp)
    (h : server url = .resp st body) (hf : st ∉ statusForcelist)
    (hr : ¬(400 ≤ st ∧ st < 600)) :
    Dynite.raw_get server url = .ok body := by
  simp [Dynite.raw_get, sessionGet, h, if_neg hf, if_neg hr]

theorem dictGet_pageBody (vals : List Json) (next : Option PyStr) :
    dictGet (pageBody vals next) valueKey (.arr []) = .ok (.arr vals) := by
  cases next <;> rfl

theorem nextlink_pageBody_none (vals : List Json) :
    Dynite.get_next_page_link (pageBody vals none) = none := rfl

theorem nextlink_pageBody_some (vals : List Json) (u : PyStr) :
    Dynite.get_next_page_link (pageBody vals (some u)) =
      if u.isEmpty then none else some u := by
  cases u <;> rfl

theorem dictGet_pageBodyV (vals : List Json) (v : Json) :
    dictGet (pageBodyV vals v) valueKey (.arr []) = .ok (.arr vals) := rfl

theorem nextlink_pageBodyV (vals : List Json) (v : Json) :
    Dynite.get_next_page_link (pageBodyV vals v) =
      if pyTruthy v then some (pyStr v) else none := by
  have h1 : jLookup (pageBodyV vals v) nextLinkKey = some v := by
    simp [jLookup, pageBodyV, lookupKV, if_neg valueKey_ne_nextLinkKey]
  simp [Dynite.get_next_page_link, h1]

theorem paginate_raw_error (server : Server) (fuel : Nat) (url : PyStr)
    (acc : List Json) (e : Err) (h : Dynite.raw_get server url = .error e) :
    Dynite.paginate server (fuel + 1) url acc = some (.error e) := by
  simp [Dynite.paginate, h]

/-- Processing one well-formed page: the page's records are appended and the
loop either stops (no cursor, or an empty-string cursor, which is falsy) or
continues at exactly the served cursor URL. -/
theorem paginate_step (server : Server) (fuel : Nat) (url : PyStr)
    (acc vals : List Json) (next : Option PyStr) (h : server url = pageResp vals next) :
    Dynite.paginate server (fuel + 1) url acc =
      match next with
      | none => some (.ok (acc ++ vals))
      | some u =>
        if u.isEmpty then some (.ok (acc ++ vals))
        else Dynite.paginate server fuel u (acc ++ vals) := by
  have hraw : Dynite.raw_get server url = .ok ⟨[], some (pageBody vals next)⟩ :=
    raw_get_ok server url 200 _ h (by decide) (by decide)
  cases next with
  | none =>
    simp [Dynite.paginate, hraw, dictGet_pageBody, pyExtend, nextlink_pageBody_none]
  | some u =>
    simp only [Dynite.paginate, hraw, dictGet_pageBody, pyExtend,
      nextlink_pageBody_some]
    by_cases hu : u.isEmpty <;> simp [hu]

/-- Processing one page whose cursor field holds an arbitrary JSON value:
a falsy cursor stops the loop, a truthy one continues at `str(cursor)`. -/
theorem paginate_stepV (server : Server) (fuel : Nat) (url : PyStr)
    (acc vals : List Json) (v : Json) (h : server url = pageRespV vals v) :
    Dynite.paginate server (fuel + 1) url acc =
      if pyTruthy v then Dynite.paginate server fuel (pyStr v) (acc ++ vals)
      else some (.ok (acc ++ vals)) := by
  have hraw : Dynite.raw_get server url = .ok ⟨[], some (pageBodyV vals v)⟩ :=
    raw_get_ok server url 200 _ h (by decide) (by decide)
  simp only [Dynite.paginate, hraw, dictGet_pageBodyV, pyExtend, nextlink_pageBodyV]
  by_cases hv : pyTruthy v <;> simp [hv]

/-- A page whose body is not well-formed JSON stops the call with
`InvalidResponseError`. -/
theorem paginate_parse_fail (server : Server) (fuel : Nat) (url : PyStr)
    (acc : List Json) (st : Nat) (content : PyStr)
    (h : server url = .resp st ⟨content, none⟩) (hf : st ∉ statusForcelist)
    (hr : ¬(400 ≤ st ∧ st < 600)) :
    Dynite.paginate server (fuel + 1) url acc = some (.error .invalidResponse) := by
  have hraw : Dynite.raw_get server url = .ok ⟨content, none⟩ :=
    raw_get_ok server url st _ h hf hr
  simp [Dynite.paginate, hraw]

/-- A page whose body parses to a non-object makes `.get("value", [])` raise
`AttributeError`, which is not converted to any `DyniteError`. -/
theorem paginate_attr_fail (server : Server) (fuel : Nat) (url : PyStr)
    (acc : List Json) (st : Nat) (content : PyStr) (j : Json)
    (h : server url = .resp st ⟨content, some j⟩) (hf : st ∉ statusForcelist)
    (hr : ¬(400 ≤ st ∧ st < 600)) (hj : j.isDict = false) :
    Dynite.paginate server (fuel + 1) url acc =
      some (.error (.pyError .attributeError)) := by
  have hraw : Dynite.raw_get server url = .ok ⟨content, some j⟩ :=
    raw_get_ok server url st _ h hf hr
  have hd : dictGet j valueKey (.arr []) = .error .attributeError := by
    cases j <;> simp_all [dictGet, Json.isDict]
  simp [Dynite.paginate, hraw, hd]

/-! ### Finite chains of page responses -/

/-- Predicate `ChainServes server url pages` says: starting at `url`, the server
delivers the non-empty sequence `pages` of record lists, every page but the
last carrying a non-empty cursor under `"@odata.nextLink"` that is exactly the
URL of the following page, and the last page carrying no cursor field. -/
def ChainServes (server : Server) : PyStr → List (List Json) → Prop
  | _, [] => False
  | url, vals :: rest =>
    match rest with
    | [] => server url = pageResp vals none
    | _ :: _ =>
      ∃ next, next ≠ [] ∧ server url = pageResp vals (some next) ∧
        ChainServes server next rest

/-- Predicate `ChainLeadsTo server url pages last` says: starting at `url`, the server
delivers the pages `pages`, each with a non-empty cursor chaining to the next,
and the final cursor is `last` (for `pages = []`, `last = url`). -/
def ChainLeadsTo (server : Server) : PyStr → List (List Json) → PyStr → Prop
  | url, [], last => url = last
  | url, vals :: rest, last =>
    ∃ next, next ≠ [] ∧ server url = pageResp vals (some next) ∧
      ChainLeadsTo server next rest last

/-- Following a finite chain of pages accumulates exactly the concatenation of
the per-page record lists, in order. -/
theorem paginate_chain (server : Server) (pages : List (List Json)) :
    ∀ (url : PyStr) (acc : List Json) (fuel : Nat),
      ChainServes server url pages → pages.length ≤ fuel →
      Dynite.paginate server fuel url acc = some (.ok (acc ++ pages.flatten)) := by
  induction pages with
  | nil => intro url acc fuel h _; exact absurd h (by simp [ChainServes])
  | cons vals rest ih =>
    intro url acc fuel h hfuel
    match fuel with
    | 0 => exact absurd hfuel (by simp)
    | fuel + 1 =>
      cases rest with
      | nil =>
        have hs : server url = pageResp vals none := h
        rw [paginate_step server fuel url acc vals none hs]
        simp
      | cons r2 rs =>
        obtain ⟨next, hne, hs, hch⟩ := h
        rw [paginate_step server fuel url acc vals (some next) hs]
        have hne' : next.isEmpty = false := by
          cases next with
          | nil => exact absurd rfl hne
          | cons a l => rfl
        dsimp only
        rw [hne']
        simp only [Bool.false_eq_true, if_false]
        rw [ih next (acc ++ vals) fuel hch (by simp at hfuel ⊢; omega)]
        simp

/-- Following a prefix chain of `pages` consumes one unit of fuel per page and
leaves the loop at the final cursor URL with the pages' records accumulated. -/
theorem paginate_through_chain (server : Server) (pages : List (List Json)) :
    ∀ (url last : PyStr) (acc : List Json) (fuel : Nat),
      ChainLeadsTo server url pages last →
      Dynite.paginate server (pages.length + fuel) url acc =
        Dynite.paginate server fuel last (acc ++ pages.flatten) := by
  induction pages with
  | nil =>
    intro url last acc fuel h
    have : url = last := h
    simp [this]
  | cons vals rest ih =>
    intro url last acc fuel h
    obtain ⟨next, hne, hs, hch⟩ := h
    have hlen : (vals :: rest).length + fuel = (rest.length + fuel) + 1 := by
      simp [List.length_cons]; omega
    rw [hlen, paginate_step server (rest.length + fuel) url acc vals (some next) hs]
    have hne' : next.isEmpty = false := by
      cases next with
      | nil => exact absurd rfl hne
      | cons a l => rfl
    dsimp only
    rw [hne']
    simp only [Bool.false_eq_true, if_false]
    rw [ih next last (acc ++ vals) fuel hch]
    simp

/-! ### Concrete clients and servers used by witnesses and counterexamples -/

/-- A client as produced by `Dynite.init "http://h" auth 30 3`. -/
def demoClient : Dynite :=
  { base_url := "http://h".toList, auth := ([], []), timeout := 30,
    mounts := [(schemeHttp, ⟨3, [429, 500, 502, 503, 504], 1⟩),
               (schemeHttps, ⟨3, [429, 500, 502, 503, 504], 1⟩)] }

def wUrl2 : PyStr := "http://h/page2".toList

/-- Server for the two-page scenario: count `"5"`, page 1 with records 1..3
and a cursor to `wUrl2`, page 2 with records 4..5 and no cursor. -/
def srvC1 : Server := fun url =>
  if url = ("http://h/entities/$count".toList) then .resp 200 ⟨"5".toList, none⟩
  else if url = ("http://h/entities".toList) then
    pageResp [wRec 1, wRec 2, wRec 3] (some wUrl2)
  else if url = wUrl2 then pageResp [wRec 4, wRec 5] none
  else .exn .connectionError

/-! ### The claims -/

/-- C1: for every endpoint and every finite chain of page responses,
`get_records` returns exactly the concatenation of the pages' `"value"`
arrays in server delivery order; each page's `"@odata.nextLink"` cursor is
used verbatim as the URL of the next request, and pagination terminates with
the accumulated records exactly when the cursor is absent.  (The initial
count request must succeed for the call to reach pagination; see C3.) -/
theorem c1_get_records_concatenates_pages (server : Server) (c : Dynite)
    (endpoint : PyStr) (params : List (PyStr × PyStr)) (pages : List (List Json))
    (n fuel : Nat)
    (hcount : c.get_record_count server endpoint params = .ok n)
    (hchain : ChainServes server (c.build_url endpoint params false) pages)
    (hfuel : pages.length ≤ fuel) :
    c.get_records server endpoint params fuel = some (.ok pages.flatten) := by
  simp only [Dynite.get_records, hcount]
  simpa using paginate_chain server pages _ [] fuel hchain hfuel

theorem c1_witness :
    demoClient.get_records srvC1 ("entities".toList) [] 2 =
      some (.ok [wRec 1, wRec 2, wRec 3, wRec 4, wRec 5]) :=
  c1_get_records_concatenates_pages srvC1 demoClient ("entities".toList) []
    [[wRec 1, wRec 2, wRec 3], [wRec 4, wRec 5]] 5 2 rfl
    ⟨wUrl2, by decide, rfl, rfl⟩ (by decide)

theorem pyIntStep_none (c : Char) : pyIntStep none c = none := by
  cases h : decimalZero c <;> simp [pyIntStep, h]

theorem foldl_pyIntStep_none (s : PyStr) : s.foldl pyIntStep none = none := by
  induction s with
  | nil => rfl
  | cons c t ih => simp [List.foldl_cons, pyIntStep_none, ih]

theorem pyInt_some_all (s : PyStr) :
    ∀ a n, s.foldl pyIntStep (some a) = some n → s.all pyIsDecimalChar = true := by
  induction s with
  | nil => intro a n _; rfl
  | cons c t ih =>
    intro a n h
    rw [List.foldl_cons] at h
    cases hc : decimalZero c with
    | none =>
      rw [show pyIntStep (some a) c = none by simp [pyIntStep, hc]] at h
      rw [foldl_pyIntStep_none] at h
      exact absurd h (by simp)
    | some z =>
      rw [show pyIntStep (some a) c = some (10 * a + (c.toNat - z)) by
        simp [pyIntStep, hc]] at h
      simp only [List.all_cons, Bool.and_eq_true]
      exact ⟨by simp [pyIsDecimalChar, hc], ih _ _ h⟩

theorem pyInt_isdigit (s : PyStr) (n : Nat) (h : pyInt s = some n) :
    pyIsDigit s = true := by
  unfold pyInt at h
  by_cases he : s.isEmpty = true
  · simp [he] at h
  · rw [if_neg he] at h
    have hall := pyInt_some_all s 0 n h
    have hdig : s.all pyIsDigitChar = true := by
      rw [List.all_eq_true] at hall ⊢
      intro c hc
      simp [pyIsDigitChar, hall c hc]
    simp [pyIsDigit, he, hdig]

/-- C2 (amended): the count body is decoded as UTF-8 with an optional leading
byte-order mark stripped and whitespace-trimmed; if the resulting text
consists entirely of decimal digits `get_record_count` returns that
non-negative integer; text failing Python's `str.isdigit` test (empty,
non-numeric, partial) fails with `InvalidResponseError` — the integer is
never guessed or defaulted.  But the original claim's "for any other text ...
Invalid Response" is too strong: text that passes `str.isdigit` while
containing a digit-typed non-decimal character (e.g. `'²'`) makes the
unguarded `int()` call raise `ValueError`, which escapes uncaught and is not
Invalid Response (see `c2_counterexample`). -/
theorem c2_record_count_digits (server : Server) (c : Dynite) (endpoint : PyStr)
    (params : List (PyStr × PyStr)) (st : Nat) (content : PyStr) (js : Option Json)
    (hresp : server (c.build_url endpoint params true) = .resp st ⟨content, js⟩)
    (hf : st ∉ statusForcelist) (hr : ¬(400 ≤ st ∧ st < 600)) :
    (∀ n, pyInt (pyStrip (utf8SigDecode content)) = some n →
      c.get_record_count server endpoint params = .ok n) ∧
    ((pyStrip (utf8SigDecode content)).all pyCharKnown = true →
      pyIsDigit (pyStrip (utf8SigDecode content)) = false →
      c.get_record_count server endpoint params = .error .invalidResponse) ∧
    (pyIsDigit (pyStrip (utf8SigDecode content)) = true →
      pyInt (pyStrip (utf8SigDecode content)) = none →
      c.get_record_count server endpoint params = .error (.pyError .valueError)) := by
  have hraw := raw_get_ok server _ st _ hresp hf hr
  refine ⟨?_, ?_, ?_⟩
  · intro n hn
    have hd := pyInt_isdigit _ n hn
    simp [Dynite.get_record_count, hraw, hd, hn]
  · intro _ h
    simp [Dynite.get_record_count, hraw, h]
  · intro h hn
    simp [Dynite.get_record_count, hraw, h, hn]

/-- Server answering the count URL with a BOM-prefixed body `"42"`. -/
def srvC2 : Server := fun url =>
  if url = ("http://h/entities/$count".toList) then
    .resp 200 ⟨bomChar :: "42".toList, none⟩
  else .exn .connectionError

theorem c2_witness :
    demoClient.get_record_count srvC2 ("entities".toList) [] = .ok 42 :=
  (c2_record_count_digits srvC2 demoClient ("entities".toList) [] 200
    (bomChar :: "42".toList) none rfl (by decide) (by decide)).1 42 (by decide)

/-- Server answering the count URL with the body `"²"` (U+00B2, SUPERSCRIPT
TWO): `"²".isdigit()` is true in Python but `int("²")` raises
`ValueError`. -/
def srvC2x : Server := fun url =>
  if url = ("http://h/entities/$count".toList) then
    .resp 200 ⟨[Char.ofNat 0xb2], none⟩
  else .exn .connectionError

/-- C2 counterexample: the count body `"²"` is not decimal-digit text, so the
claim demands Invalid Response; the code instead lets `int("²")` raise an
uncaught `ValueError` (the `isdigit` guard passes), which is not
`InvalidResponseError`. -/
theorem c2_counterexample :
    demoClient.get_record_count srvC2x ("entities".toList) [] =
      .error (.pyError .valueError) ∧
    Err.pyError .valueError ≠ Err.invalidResponse :=
  ⟨rfl, by decide⟩

/-- C3 (amended): the count VALUE is informational only — whenever the count
fetch succeeds, `get_records` behaves exactly as the pagination loop started
at the count-free URL with an empty accumulator, independently of which count
was returned, and the sole termination condition of that loop is the absence
of a (truthy) next-page cursor.  However the OUTCOME of the count retrieval
is not irrelevant: if it fails, the whole call fails (see
`c3_counterexample`). -/
theorem c3_count_value_unused (server : Server) (c : Dynite) (endpoint : PyStr)
    (params : List (PyStr × PyStr)) (n fuel : Nat)
    (hcount : c.get_record_count server endpoint params = .ok n) :
    c.get_records server endpoint params fuel =
      Dynite.paginate server fuel (c.build_url endpoint params false) [] := by
  simp [Dynite.get_records, hcount]

/-- Server whose count body is non-numeric while its single page is fine. -/
def srvC3 : Server := fun url =>
  if url = ("http://h/entities/$count".toList) then .resp 200 ⟨"oops".toList, none⟩
  else if url = ("http://h/entities".toList) then pageResp [wRec 1] none
  else .exn .connectionError

/-- C3 counterexample: with server `srvC3` pagination alone would deliver
`[{"id": 1}]`, yet `get_records` fails with `InvalidResponseError`, because
the count body `"oops"` is not numeric — so the outcome of `get_records` is
NOT independent of the outcome of the count retrieval. -/
theorem c3_counterexample :
    Dynite.paginate srvC3 1 ("http://h/entities".toList) [] = some (.ok [wRec 1]) ∧
    demoClient.get_records srvC3 ("entities".toList) [] 1 =
      some (.error .invalidResponse) :=
  ⟨rfl, rfl⟩

/-- Server with count `"1"` and one good page. -/
def srvC3w : Server := fun url =>
  if url = ("http://h/entities/$count".toList) then .resp 200 ⟨"1".toList, none⟩
  else if url = ("http://h/entities".toList) then pageResp [wRec 1] none
  else .exn .connectionError

theorem c3_witness :
    demoClient.get_records srvC3w ("entities".toList) [] 1 =
      Dynite.paginate srvC3w 1 (demoClient.build_url ("entities".toList) [] false) [] :=
  c3_count_value_unused srvC3w demoClient ("entities".toList) [] 1 1 rfl

/-- C4: if any page of the chain fails to parse as JSON, `get_records` raises
`InvalidResponseError` immediately and returns zero records — the records
accumulated from earlier pages are discarded, never returned partially. -/
theorem c4_nonjson_page_aborts (server : Server) (c : Dynite) (endpoint : PyStr)
    (params : List (PyStr × PyStr)) (pages : List (List Json))
    (badUrl content : PyStr) (st n f : Nat)
    (hcount : c.get_record_count server endpoint params = .ok n)
    (hpre : ChainLeadsTo server (c.build_url endpoint params false) pages badUrl)
    (hbad : server badUrl = .resp st ⟨content, none⟩)
    (hf : st ∉ statusForcelist) (hr : ¬(400 ≤ st ∧ st < 600)) :
    c.get_records server endpoint params (pages.length + (f + 1)) =
      some (.error .invalidResponse) := by
  simp only [Dynite.get_records, hcount]
  rw [paginate_through_chain server pages _ badUrl [] (f + 1) hpre]
  exact paginate_parse_fail server f badUrl _ st content hbad hf hr

def wUrlBad : PyStr := "http://h/page2bad".toList

/-- Server with a good first page whose cursor points at a page with a
non-JSON (HTML) body. -/
def srvC4 : Server := fun url =>
  if url = ("http://h/entities/$count".toList) then .resp 200 ⟨"3".toList, none⟩
  else if url = ("http://h/entities".toList) then pageResp [wRec 1] (some wUrlBad)
  else if url = wUrlBad then .resp 200 ⟨"<html>".toList, none⟩
  else .exn .connectionError

theorem c4_witness :
    demoClient.get_records srvC4 ("entities".toList) [] 2 =
      some (.error .invalidResponse) :=
  c4_nonjson_page_aborts srvC4 demoClient ("entities".toList) [] [[wRec 1]]
    wUrlBad ("<html>".toList) 200 3 0 rfl ⟨wUrlBad, by decide, rfl, rfl⟩ rfl
    (by decide) (by decide)

/-- C5 (amended): every `RequestException` from `session.get` (connection
failure, timeout, retry exhaustion on the retryable status set) and every
response status in 400..599 is surfaced by `_get` as the single
`FailedRequestError` kind carrying the underlying cause; in particular a page
request answered with status 404 or 500 makes the in-flight `get_records`
call fail with `FailedRequestError` and no records.  (The original claim's
"any non-2xx status" is too broad: `raise_for_status` raises only for
400..599, see `c5_counterexample` with status 304.) -/
theorem c5_request_failures (server : Server) (c : Dynite) (url : PyStr)
    (endpoint : PyStr) (params : List (PyStr × PyStr)) (pages : List (List Json))
    (badUrl : PyStr) (n f : Nat) :
    (∀ cause, server url = .exn cause →
      Dynite.raw_get server url = .error (.failedRequest cause)) ∧
    (∀ st body, server url = .resp st body → st ∈ statusForcelist →
      Dynite.raw_get server url = .error (.failedRequest .retryError)) ∧
    (∀ st body, server url = .resp st body → st ∉ statusForcelist →
      400 ≤ st → st < 600 →
      Dynite.raw_get server url = .error (.failedRequest (.httpError st))) ∧
    (∀ body, c.get_record_count server endpoint params = .ok n →
      ChainLeadsTo server (c.build_url endpoint params false) pages badUrl →
      server badUrl = .resp 404 body →
      c.get_records server endpoint params (pages.length + (f + 1)) =
        some (.error (.failedRequest (.httpError 404)))) ∧
    (∀ body, c.get_record_count server endpoint params = .ok n →
      ChainLeadsTo server (c.build_url endpoint params false) pages badUrl →
      server badUrl = .resp 500 body →
      c.get_records server endpoint params (pages.length + (f + 1)) =
        some (.error (.failedRequest .retryError))) := by
  refine ⟨?_, ?_, ?_, ?_, ?_⟩
  · intro cause h; exact raw_get_exn server url cause h
  · intro st body h hf; exact raw_get_retry server url st body h hf
  · intro st body h hf h4 h6; exact raw_get_http_error server url st body h hf ⟨h4, h6⟩
  · intro body hcount hpre hbad
    simp only [Dynite.get_records, hcount]
    rw [paginate_through_chain server pages _ badUrl [] (f + 1) hpre]
    exact paginate_raw_error server f badUrl _ _
      (raw_get_http_error server badUrl 404 body hbad (by decide) (by decide))
  · intro body hcount hpre hbad
    simp only [Dynite.get_records, hcount]
    rw [paginate_through_chain server pages _ badUrl [] (f + 1) hpre]
    exact paginate_raw_error server f badUrl _ _
      (raw_get_retry server badUrl 500 body hbad (by decide))

/-- Server whose page request is answered 404 and where `http://x` times
out. -/
def srvC5 : Server := fun url =>
  if url = ("http://h/entities/$count".toList) then .resp 200 ⟨"1".toList, none⟩
  else if url = ("http://h/entities".toList) then .resp 404 ⟨[], none⟩
  else if url = ("http://x".toList) then .exn .timeoutError
  else .exn .connectionError

theorem c5_witness :
    Dynite.raw_get srvC5 ("http://x".toList) = .error (.failedRequest .timeoutError) ∧
    demoClient.get_records srvC5 ("entities".toList) [] 1 =
      some (.error (.failedRequest (.httpError 404))) :=
  ⟨(c5_request_failures srvC5 demoClient ("http://x".toList) ("entities".toList)
      [] [] ("http://h/entities".toList) 1 0).1 .timeoutError rfl,
   (c5_request_failures srvC5 demoClient ("http://x".toList) ("entities".toList)
      [] [] ("http://h/entities".toList) 1 0).2.2.2.1 ⟨[], none⟩ rfl rfl rfl⟩

/-- Server answering the page request with the non-2xx status 304 and a valid
JSON body. -/
def srvC5x : Server := fun url =>
  if url = ("http://h/entities/$count".toList) then .resp 200 ⟨"1".toList, none⟩
  else if url = ("http://h/entities".toList) then
    .resp 304 ⟨[], some (pageBody [wRec 7] none)⟩
  else .exn .connectionError

/-- C5 counterexample: a page request answered with the non-2xx status 304 is
NOT surfaced as Request Failed — `raise_for_status` raises only for statuses
in 400..599, so `get_records` succeeds and returns the page's records. -/
theorem c5_counterexample :
    demoClient.get_records srvC5x ("entities".toList) [] 1 = some (.ok [wRec 7]) :=
  rfl

theorem head_lstripSlashes (s : PyStr) : (lstripSlashes s).head? ≠ some '/' := by
  induction s with
  | nil => simp [lstripSlashes]
  | cons a l ih =>
    by_cases ha : a = '/'
    · have h : lstripSlashes (a :: l) = lstripSlashes l := by
        simp [lstripSlashes, List.dropWhile_cons, ha]
      rw [h]; exact ih
    · have h : lstripSlashes (a :: l) = a :: l := by
        simp [lstripSlashes, List.dropWhile_cons, ha]
      rw [h]
      simpa using ha

/-- C6: `_build_url` is pure and idempotent (two calls with identical
arguments yield the identical URL), a leading `'/'` on the endpoint never
changes the result, the joined URL is `base ++ "/" ++ stripped-endpoint`
where the stripped endpoint never starts with `'/'` (so the separator at the
junction is never duplicated), and with the count flag the literal segment
`"/$count"` is appended after the endpoint and before the query string. -/
theorem c6_build_url_pure (c : Dynite) (endpoint : PyStr)
    (params : List (PyStr × PyStr)) (get_count : Bool) :
    c.build_url endpoint params get_count = c.build_url endpoint params get_count ∧
    c.build_url ('/' :: endpoint) params get_count =
      c.build_url endpoint params get_count ∧
    (c.build_url endpoint [] false = c.base_url ++ '/' :: lstripSlashes endpoint ∧
      (lstripSlashes endpoint).head? ≠ some '/') ∧
    c.build_url endpoint params true =
      c.build_url endpoint [] false ++ "/$count".toList ++
        (if params.isEmpty then [] else '?' :: urlencode params) := by
  refine ⟨rfl, ?_, ⟨rfl, head_lstripSlashes endpoint⟩, ?_⟩
  · simp [Dynite.build_url, lstripSlashes, List.dropWhile_cons]
  · by_cases hp : params.isEmpty <;> simp [Dynite.build_url, hp, List.append_assoc]

theorem c6_witness :
    demoClient.build_url ('/' :: "e".toList) [] false =
      demoClient.build_url ("e".toList) [] false ∧
    demoClient.build_url ("e".toList) [("a".toList, "b c".toList)] true =
      demoClient.build_url ("e".toList) [] false ++ "/$count".toList ++
        '?' :: urlencode [("a".toList, "b c".toList)] :=
  ⟨(c6_build_url_pure demoClient ("e".toList) [] false).2.1,
   by simpa using
     (c6_build_url_pure demoClient ("e".toList) [("a".toList, "b c".toList)] false).2.2.2⟩

theorem validate_url_ok_eq (url s : PyStr) (h : Dynite.validate_url url = .ok s) :
    s = rstripSlashes (pyStrip url) := by
  simp only [Dynite.validate_url] at h
  split_ifs at h with h1 h2
  any_goals simp at h
  exact h.symm

/-- C7 (amended): validation first strips surrounding whitespace; a base URL
that (after stripping) lacks an `http://`/`https://` scheme or a host fails
construction synchronously with `InvalidURLError`; every accepted base URL is
stored as its whitespace-stripped form with ALL trailing slashes removed.
(The original claim's "stored = same URL with the trailing slash removed"
fails because surrounding whitespace is also stripped and every trailing
slash — not just one — is removed, see `c7_counterexample`.) -/
theorem c7_url_validation (url : PyStr) :
    (¬(hasHttpScheme (pyStrip url) = true) →
      Dynite.validate_url url = .error .invalidURL ∧
      ∀ a t r, Dynite.init url a t r = .error .invalidURL) ∧
    (hasHttpScheme (pyStrip url) = true → netlocAfter (pyStrip url) = [] →
      Dynite.validate_url url = .error .invalidURL ∧
      ∀ a t r, Dynite.init url a t r = .error .invalidURL) ∧
    (∀ s, Dynite.validate_url url = .ok s → s = rstripSlashes (pyStrip url)) ∧
    (∀ a t r c, Dynite.init url a t r = .ok c →
      c.base_url = rstripSlashes (pyStrip url)) := by
  refine ⟨?_, ?_, fun s h => validate_url_ok_eq url s h, ?_⟩
  · intro h
    have hb : hasHttpScheme (pyStrip url) = false := by
      cases hh : hasHttpScheme (pyStrip url)
      · rfl
      · exact absurd hh h
    have hv : Dynite.validate_url url = .error .invalidURL := by
      simp [Dynite.validate_url, hb]
    exact ⟨hv, fun a t r => by simp [Dynite.init, hv]⟩
  · intro hs hn
    have hv : Dynite.validate_url url = .error .invalidURL := by
      simp [Dynite.validate_url, hs, hn]
    exact ⟨hv, fun a t r => by simp [Dynite.init, hv]⟩
  · intro a t r c h
    cases hv : Dynite.validate_url url with
    | error e => simp [Dynite.init, hv] at h
    | ok b =>
      have hb : b = rstripSlashes (pyStrip url) := validate_url_ok_eq url b hv
      simp only [Dynite.init, hv] at h
      rw [← hb]
      cases h
      rfl

/-- C7 counterexample: `" http://h//"` is accepted and has a trailing slash,
but the stored base URL is `"http://h"` — not the input with the trailing
slash removed (`" http://h/"`): whitespace is stripped and every trailing
slash removed. -/
theorem c7_counterexample :
    Dynite.validate_url (" http://h//".toList) = .ok ("http://h".toList) ∧
    ("http://h".toList ≠ " http://h/".toList) :=
  ⟨rfl, by decide⟩

theorem c7_witness :
    Dynite.validate_url ("ftp://h".toList) = .error .invalidURL ∧
    Dynite.init ("ftp://h".toList) ([], []) 30 3 = .error .invalidURL :=
  ⟨((c7_url_validation ("ftp://h".toList)).1 (by decide)).1,
   ((c7_url_validation ("ftp://h".toList)).1 (by decide)).2 ([], []) 30 3⟩

/-- C8: for a valid base URL construction always succeeds; a timeout ≤ 0 is
replaced by the default 30 and a positive timeout is kept; retries < 0 is
replaced by the default 3 and any other retries value is kept; the retry
policy has status forcelist {429, 500, 502, 503, 504} (and backoff factor 1)
and the identical policy is mounted on both the `http://` and `https://`
schemes. -/
theorem c8_timeout_retries (b : PyStr) (a : PyStr × PyStr) (t r : Int) (v : PyStr)
    (h : Dynite.validate_url b = .ok v) :
    ∃ c p, Dynite.init b a t r = .ok c ∧
      (t ≤ 0 → c.timeout = 30) ∧ (0 < t → c.timeout = t) ∧
      (r < 0 → p.total = 3) ∧ (0 ≤ r → p.total = r) ∧
      p.status_forcelist = [429, 500, 502, 503, 504] ∧ p.backoff_factor = 1 ∧
      c.mounts = [(schemeHttp, p), (schemeHttps, p)] := by
  refine ⟨{ base_url := v, auth := a, timeout := Dynite.validate_timeout t,
            mounts := [(schemeHttp, ⟨if r < 0 then 3 else r, [429, 500, 502, 503, 504], 1⟩),
                       (schemeHttps, ⟨if r < 0 then 3 else r, [429, 500, 502, 503, 504], 1⟩)] },
          ⟨if r < 0 then 3 else r, [429, 500, 502, 503, 504], 1⟩,
          ?_, ?_, ?_, ?_, ?_, rfl, rfl, rfl⟩
  · simp [Dynite.init, h]
  · intro ht; simp [Dynite.validate_timeout, ht]
  · intro ht
    have hn : ¬ t ≤ 0 := by omega
    simp [Dynite.validate_timeout, hn]
  · intro hr; simp [hr]
  · intro hr
    have hn : ¬ r < 0 := by omega
    simp [hn]

theorem c8_witness :
    ∃ c p, Dynite.init ("http://h".toList) ([], []) (-5) (-2) = .ok c ∧
      ((-5 : Int) ≤ 0 → c.timeout = 30) ∧ (0 < (-5 : Int) → c.timeout = -5) ∧
      ((-2 : Int) < 0 → p.total = 3) ∧ (0 ≤ (-2 : Int) → p.total = -2) ∧
      p.status_forcelist = [429, 500, 502, 503, 504] ∧ p.backoff_factor = 1 ∧
      c.mounts = [(schemeHttp, p), (schemeHttps, p)] :=
  c8_timeout_retries ("http://h".toList) ([], []) (-5) (-2) ("http://h".toList) rfl

/-- C9: `InvalidResponseError` covers exactly the JSON-decoding failure of a
page body; a page body that parses to a non-object (array, string, number,
boolean, null) makes `.get("value", [])` raise `AttributeError`, an error
that is none of the three documented `DyniteError` kinds. -/
theorem c9_nonobject_page (server : Server) (c : Dynite) (endpoint : PyStr)
    (params : List (PyStr × PyStr)) (pages : List (List Json))
    (badUrl content : PyStr) (j : Json) (st n f : Nat)
    (hcount : c.get_record_count server endpoint params = .ok n)
    (hpre : ChainLeadsTo server (c.build_url endpoint params false) pages badUrl)
    (hbad : server badUrl = .resp st ⟨content, some j⟩)
    (hf : st ∉ statusForcelist) (hr : ¬(400 ≤ st ∧ st < 600))
    (hj : j.isDict = false) :
    c.get_records server endpoint params (pages.length + (f + 1)) =
      some (.error (.pyError .attributeError)) ∧
    Err.pyError .attributeError ≠ Err.invalidURL ∧
    Err.pyError .attributeError ≠ Err.invalidResponse ∧
    ∀ cause, Err.pyError .attributeError ≠ Err.failedRequest cause := by
  refine ⟨?_, by decide, by decide, fun cause => by simp⟩
  simp only [Dynite.get_records, hcount]
  rw [paginate_through_chain server pages _ badUrl [] (f + 1) hpre]
  exact paginate_attr_fail server f badUrl _ st content j hbad hf hr hj

/-- Server whose page body is the well-formed JSON array `[{"id": 1}]` (not
an object). -/
def srvC9 : Server := fun url =>
  if url = ("http://h/entities/$count".toList) then .resp 200 ⟨"1".toList, none⟩
  else if url = ("http://h/entities".toList) then
    .resp 200 ⟨[], some (.arr [wRec 1])⟩
  else .exn .connectionError

theorem c9_witness :
    demoClient.get_records srvC9 ("entities".toList) [] 1 =
      some (.error (.pyError .attributeError)) :=
  (c9_nonobject_page srvC9 demoClient ("entities".toList) [] []
    ("http://h/entities".toList) [] (.arr [wRec 1]) 200 1 0 rfl rfl rfl
    (by decide) (by decide) rfl).1

/-- C10: a present-but-falsy `"@odata.nextLink"` value (empty string, null,
0, false) is treated like an absent cursor — the next-page link is reported
as `None`, pagination terminates and the accumulated records are returned;
a truthy cursor value is coerced with `str(...)` and that string is used
verbatim as the next request URL. -/
theorem c10_cursor_truthiness (server : Server) (url : PyStr)
    (vals vals2 : List Json) (v : Json) (f : Nat)
    (h : server url = pageRespV vals v) :
    (pyTruthy v = false →
      Dynite.paginate server (f + 1) url [] = some (.ok vals) ∧
      Dynite.get_next_page_link (pageBodyV vals v) = none) ∧
    (pyTruthy v = true → server (pyStr v) = pageResp vals2 none →
      Dynite.paginate server (f + 1 + 1) url [] = some (.ok (vals ++ vals2))) := by
  constructor
  · intro hv
    constructor
    · rw [paginate_stepV server f url [] vals v h, hv]
      simp
    · rw [nextlink_pageBodyV, hv]
      simp
  · intro hv h2
    rw [paginate_stepV server (f + 1) url [] vals v h, hv]
    simp only [if_true]
    rw [paginate_step server f (pyStr v) ([] ++ vals) vals2 none h2]
    simp

/-- Server with a numeric cursor `5`: the next request goes to the URL
`"5"`. -/
def srvC10 : Server := fun url =>
  if url = ("http://h/p".toList) then pageRespV [wRec 1] (.num 5)
  else if url = ("5".toList) then pageResp [wRec 2] none
  else .exn .connectionError

/-- Server with a present but falsy (empty string) cursor. -/
def srvC10b : Server := fun url =>
  if url = ("http://h/p".toList) then pageRespV [wRec 3] (.str [])
  else .exn .connectionError

theorem c10_witness :
    Dynite.paginate srvC10 2 ("http://h/p".toList) [] = some (.ok [wRec 1, wRec 2]) ∧
    Dynite.paginate srvC10b 1 ("http://h/p".toList) [] = some (.ok [wRec 3]) ∧
    Dynite.get_next_page_link (pageBodyV [wRec 3] (.str [])) = none :=
  ⟨(c10_cursor_truthiness srvC10 ("http://h/p".toList) [wRec 1] [wRec 2]
      (.num 5) 0 rfl).2 (by decide) rfl,
   ((c10_cursor_truthiness srvC10b ("http://h/p".toList) [wRec 3] []
      (.str []) 0 rfl).1 (by decide)).1,
   ((c10_cursor_truthiness srvC10b ("http://h/p".toList) [wRec 3] []
      (.str []) 0 rfl).1 (by decide)).2⟩
